import Mathlib

/-!
Shallow embedding of the credential-rotation / status-probe core of the
`github-readme-stats` Netlify functions:

* `netlify/functions/status/pat-info.js` — the Status Prober (`getPATInfo`)
  and its HTTP handler;
* the uptime function (`shieldsUptimeBadge` and its HTTP handler), which
  delegates to the credential-rotation retryer.

GraphQL responses, thrown transport errors and the Netlify response objects
are embedded as explicit Lean structures; the per-credential classification,
report aggregation and header logic are translated line by line from the
JavaScript source.
-/

namespace GRS

/-- One entry of the GraphQL `errors` array: `{ type, message }`. -/
structure GQLError where
  type : String
  message : String
deriving DecidableEq, Repr

/-- The `rateLimit` object of the GraphQL payload.  Both fields are optional
because the JavaScript accesses them behind optional chaining (`?.`) in some
places; `resetAt` is modelled as an epoch timestamp in milliseconds. -/
structure RateLimit where
  remaining : Option Int
  resetAt : Option Int
deriving DecidableEq, Repr

/-- The `data` object of the GraphQL body (`response.data.data` in axios
terms): it may or may not carry a `rateLimit` object. -/
structure RespData where
  rateLimit : Option RateLimit
deriving DecidableEq, Repr

/-- The GraphQL body (`response.data` in axios terms): an optional `errors`
array and an optional `data` object. -/
structure Response where
  errors : Option (List GQLError)
  data : Option RespData
deriving DecidableEq, Repr

/-- A thrown JavaScript error, as far as the probe inspects it:
`err.message` and `err.response?.data?.message` (absent when the error has
no HTTP response attached). -/
structure JsError where
  message : String
  responseMessage : Option String
deriving DecidableEq, Repr

/-- The outcome of one `fetcher(variables, token)` call for one credential:
either the promise resolved with a GraphQL body, or it rejected with a
thrown error. -/
inductive FetchOutcome
  | ok (resp : Response)
  | err (e : JsError)
deriving DecidableEq, Repr

/-- An error that aborts the whole probe: either a thrown fetch error whose
`response.data.message` matches none of the recognized signals (re-thrown by
the `catch` block), or a JavaScript `TypeError` raised by reading a field of
`undefined` inside the `try` block (which the `catch` block also re-throws,
since a `TypeError` carries no `response`). -/
inductive ProbeErr
  | rethrown (e : JsError)
  | typeError
deriving DecidableEq, Repr

/-- The `err.message` text used by the handler to build its 500 body. -/
def ProbeErr.errText : ProbeErr → String
  | .rethrown e => e.message
  | .typeError => "TypeError"

/-- The per-credential detail object stored in `details[pat]`. -/
inductive PATDetail
  | valid (remaining : Option Int)
  | exhausted (remaining : Int) (resetIn : String)
  | expired
  | suspended
  | error (type : String) (message : String)
deriving DecidableEq, Repr

/-- The `status` field of a detail object. -/
def PATDetail.status : PATDetail → String
  | .valid _ => "valid"
  | .exhausted _ _ => "exhausted"
  | .expired => "expired"
  | .suspended => "suspended"
  | .error _ _ => "error"

/-- The `resetIn` field of a detail object, when present. -/
def PATDetail.resetIn : PATDetail → Option String
  | .exhausted _ r => some r
  | _ => none

/-- Modelled from the spec: `dateDiff` lives in `src/common/utils.js`, which
is not part of the visible source; the spec asks for the number of minutes
between the two instants as a truncated integer ("e.g. truncated integer
minutes"), so we divide the millisecond difference by 60000 rounding toward
zero. -/
def dateDiff (d2 d1 : Int) : Int :=
  Int.tdiv (d2 - d1) 60000

/-- Evaluation of `response.data.data?.rateLimit?.remaining` (optional
chaining, so absence at any step yields `undefined`). -/
def Response.remainingOpt (resp : Response) : Option Int :=
  (resp.data.bind RespData.rateLimit).bind RateLimit.remaining

/-- Evaluation of `response.data?.data?.rateLimit?.resetAt`. -/
def Response.resetAtOpt (resp : Response) : Option Int :=
  (resp.data.bind RespData.rateLimit).bind RateLimit.resetAt

/-- The `type` of the first entry of the `errors` array
(`errors?.[0]?.type`), when the array is present and nonempty. -/
def Response.firstErrType (resp : Response) : Option String :=
  match resp.errors with
  | some (e :: _) => some e.type
  | _ => none

/-- The string stored as `resetIn`: `dateDiff(new Date(resetAt), new Date())
+ " minutes"`.  When `resetAt` is absent, `new Date(undefined)` is an
invalid date and the arithmetic yields `NaN`. -/
def resetInStr (now : Int) (resetAt : Option Int) : String :=
  match resetAt with
  | some t => toString (dateDiff t now) ++ " minutes"
  | none => "NaN minutes"

/-- JavaScript `String.prototype.toLowerCase`, written as a structural map
over the character list (extensionally `String.toLower`). -/
def jsToLower (s : String) : String :=
  String.mk (s.data.map Char.toLower)

/-- The lower-cased `err.response?.data?.message?.toLowerCase()`. -/
def JsError.lowerMsg (e : JsError) : Option String :=
  e.responseMessage.map jsToLower

/-- One iteration of the `for (const pat of PATs)` loop body of
`getPATInfo`, mapping the fetch outcome for one credential to either the
detail object stored for it, or the error that the iteration re-throws
(aborting the probe).

On a resolved response it follows the source exactly: a present `errors`
array with a first entry whose type is not `"RATE_LIMITED"` is stored as
`status: "error"`; otherwise `isRateLimited` (first error type
`"RATE_LIMITED"`, or `remaining === 0`) is stored as `status: "exhausted"`
with `remaining: 0` and the `resetIn` string; otherwise the credential is
stored as `status: "valid"` with `response.data.data.rateLimit.remaining`
(a non-optional access: a missing `data` or `rateLimit` object raises a
`TypeError`, which the `catch` block re-throws).  A present-but-empty
`errors` array takes the `status: "error"` branch where `errors[0].type`
raises a `TypeError`.

On a rejected fetch, `err.response?.data?.message?.toLowerCase()` equal to
`"bad credentials"` is stored as expired, `"sorry. your account was
suspended."` as suspended, and anything else is re-thrown. -/
def classifyPAT (now : Int) : FetchOutcome → Except ProbeErr PATDetail
  | .ok resp =>
    match resp.errors with
    | some [] => .error .typeError
    | some (e :: _) =>
      if e.type ≠ "RATE_LIMITED" then
        .ok (.error e.type e.message)
      else
        .ok (.exhausted 0 (resetInStr now resp.resetAtOpt))
    | none =>
      if resp.remainingOpt = some 0 then
        .ok (.exhausted 0 (resetInStr now resp.resetAtOpt))
      else
        match resp.data with
        | none => .error .typeError
        | some d =>
          match d.rateLimit with
          | none => .error .typeError
          | some rl => .ok (.valid rl.remaining)
  | .err e =>
    if e.lowerMsg = some "bad credentials" then
      .ok .expired
    else if e.lowerMsg = some "sorry. your account was suspended." then
      .ok .suspended
    else
      .error (.rethrown e)

/-- Assignment `details[pat] = v` on a JavaScript object modelled as an
association list: overwriting an existing key keeps its position, a new key
is appended (JavaScript string-key insertion order). -/
def jsSet (m : List (String × PATDetail)) (k : String) (v : PATDetail) :
    List (String × PATDetail) :=
  if m.any (fun p => p.1 = k) then
    m.map (fun p => if p.1 = k then (k, v) else p)
  else
    m ++ [(k, v)]

/-- The `for (const pat of PATs)` loop of `getPATInfo`: each credential is
fetched and classified in order; an aborting error stops the loop and
propagates. -/
def probeLoop (now : Int) :
    List (String × FetchOutcome) → List (String × PATDetail) →
    Except ProbeErr (List (String × PATDetail))
  | [], acc => .ok acc
  | (pat, r) :: rest, acc =>
    match classifyPAT now r with
    | .error e => .error e
    | .ok d => probeLoop now rest (jsSet acc pat d)

/-- The helper `filterPATsByStatus`: `Object.keys(details)` in insertion
order, keeping the keys whose detail has the given status. -/
def filterPATsByStatus (details : List (String × PATDetail)) (status : String) :
    List String :=
  (details.filter (fun p => p.2.status = status)).map Prod.fst

/-- Lexicographic comparison of character lists, the order JavaScript's
default `Array.prototype.sort()` uses on the (ASCII) key strings. -/
def charListLe : List Char → List Char → Bool
  | [], _ => true
  | _ :: _, [] => false
  | a :: as, b :: bs =>
    if a < b then true
    else if b < a then false
    else charListLe as bs

/-- The string order of `Object.keys(details).sort()`. -/
def jsLe (a b : String) : Prop :=
  charListLe a.data b.data = true

instance : DecidableRel jsLe := fun a b =>
  inferInstanceAs (Decidable (charListLe a.data b.data = true))

theorem charListLe_total (a b : List Char) :
    charListLe a b = true ∨ charListLe b a = true := by
  induction a generalizing b with
  | nil => exact Or.inl rfl
  | cons x xs ih =>
    cases b with
    | nil => exact Or.inr rfl
    | cons y ys =>
      by_cases hxy : x < y
      · exact Or.inl (by simp [charListLe, hxy])
      · by_cases hyx : y < x
        · exact Or.inr (by simp [charListLe, hyx])
        · rcases ih ys with h | h
          · exact Or.inl (by simp [charListLe, hxy, hyx, h])
          · exact Or.inr (by simp [charListLe, hxy, hyx, h])

theorem charListLe_trans (a b c : List Char) (hab : charListLe a b = true)
    (hbc : charListLe b c = true) : charListLe a c = true := by
  induction a generalizing b c with
  | nil => rfl
  | cons x xs ih =>
    cases b with
    | nil => simp [charListLe] at hab
    | cons y ys =>
      cases c with
      | nil => simp [charListLe] at hbc
      | cons z zs =>
        by_cases hxy : x < y
        · by_cases hyz : y < z
          · simp [charListLe, lt_trans hxy hyz]
          · by_cases hzy : z < y
            · simp [charListLe, hyz, hzy] at hbc
            · have hyz' : y = z := le_antisymm (not_lt.mp hzy) (not_lt.mp hyz)
              subst hyz'
              simp [charListLe, hxy]
        · by_cases hyx : y < x
          · simp [charListLe, hxy, hyx] at hab
          · have hxy' : x = y := le_antisymm (not_lt.mp hyx) (not_lt.mp hxy)
            subst hxy'
            by_cases hyz : x < z
            · simp [charListLe, hyz]
            · by_cases hzy : z < x
              · simp [charListLe, hyz, hzy] at hbc
              · have hyz' : x = z := le_antisymm (not_lt.mp hzy) (not_lt.mp hyz)
                subst hyz'
                have hxs : charListLe xs ys = true := by
                  simpa [charListLe, hxy, hyx] using hab
                have hys : charListLe ys zs = true := by
                  simpa [charListLe, hyz, hzy] using hbc
                simp [charListLe, ih ys zs hxs hys]

instance : IsTotal String jsLe :=
  ⟨fun a b => charListLe_total a.data b.data⟩

instance : IsTrans String jsLe :=
  ⟨fun a b c => charListLe_trans a.data b.data c.data⟩

/-- The `sortedDetails` computation: `Object.keys(details).sort()` followed
by a reduce that re-inserts each key in sorted order. -/
def sortDetails (details : List (String × PATDetail)) :
    List (String × PATDetail) :=
  (List.insertionSort jsLe (details.map Prod.fst)).filterMap
    (fun k => (details.lookup k).map (fun v => (k, v)))

/-- The report returned by `getPATInfo`. -/
structure PATInfo where
  validPATs : List String
  expiredPATs : List String
  exhaustedPATs : List String
  suspendedPATs : List String
  errorPATs : List String
  details : List (String × PATDetail)
deriving DecidableEq, Repr

/-- The Status Prober `getPATInfo`: the configured credential pool is given
as the list of `(PAT name, fetch outcome)` pairs in environment order, and
`now` is the current time in epoch milliseconds.  Returns the report, or
the error that aborted the probe. -/
def getPATInfo (now : Int) (pats : List (String × FetchOutcome)) :
    Except ProbeErr PATInfo :=
  match probeLoop now pats [] with
  | .error e => .error e
  | .ok details =>
    .ok
      { validPATs := filterPATsByStatus details "valid"
        expiredPATs := filterPATsByStatus details "expired"
        exhaustedPATs := filterPATsByStatus details "exhausted"
        suspendedPATs := filterPATsByStatus details "suspended"
        errorPATs := filterPATsByStatus details "error"
        details := sortDetails details }

/-- The `RATE_LIMIT_SECONDS` constant: 1 request per 5 minutes. -/
def RATE_LIMIT_SECONDS : Nat := 60 * 5

/-- The body of the pat-info handler response: the JSON-rendered report on
success, a plain-text message on internal failure. -/
inductive PatBody
  | json (info : PATInfo)
  | text (s : String)
deriving DecidableEq, Repr

/-- A Netlify function response, as far as the probed endpoints build it:
status code, `Content-Type`, optional `Cache-Control`, and a body. -/
structure PatInfoResponse where
  statusCode : Nat
  contentType : String
  cacheControl : Option String
  body : PatBody
deriving DecidableEq, Repr

/-- The pat-info HTTP handler: on success it returns 200 with
`Cache-Control: max-age=0, s-maxage=300` and the JSON report; when
`getPATInfo` throws it returns 500 with `Content-Type: text/plain`,
`Cache-Control: no-store` and a plain-text error body. -/
def patInfoHandler (now : Int) (pats : List (String × FetchOutcome)) :
    PatInfoResponse :=
  match getPATInfo now pats with
  | .ok info =>
    { statusCode := 200
      contentType := "application/json"
      cacheControl := some ("max-age=0, s-maxage=" ++ toString RATE_LIMIT_SECONDS)
      body := .json info }
  | .error e =>
    { statusCode := 500
      contentType := "text/plain"
      cacheControl := some "no-store"
      body := .text ("Something went wrong: " ++ e.errText) }

/-- The shields.io badge object built by `shieldsUptimeBadge`. -/
structure ShieldsResponse where
  schemaVersion : Nat
  label : String
  message : String
  color : String
  isError : Bool
deriving DecidableEq, Repr

/-- The `shieldsUptimeBadge` function of the uptime endpoint: message and
color depend on `up`, `isError` is the constant `false`. -/
def shieldsUptimeBadge (up : Bool) : ShieldsResponse :=
  { schemaVersion := 1
    label := "Public Instance"
    message := if up then "up" else "down"
    color := if up then "brightgreen" else "red"
    isError := false }

/-- JavaScript rendering of a boolean, as produced both by `String(b)` and
by `JSON.stringify` of a boolean field. -/
def jsBool (b : Bool) : String :=
  if b then "true" else "false"

/-- The string `JSON.stringify({up: b})`. -/
def stringifyUp (b : Bool) : String :=
  "\x7b\x22up\x22:" ++ jsBool b ++ "\x7d"

/-- The string `JSON.stringify(shieldsUptimeBadge(up))` (field order is the
object-literal order of the source). -/
def stringifyShields (r : ShieldsResponse) : String :=
  "\x7b\x22schemaVersion\x22:" ++ toString r.schemaVersion ++
    ",\x22label\x22:\x22" ++ r.label ++
    "\x22,\x22message\x22:\x22" ++ r.message ++
    "\x22,\x22color\x22:\x22" ++ r.color ++
    "\x22,\x22isError\x22:" ++ jsBool r.isError ++ "\x7d"

/-- A Netlify response of the uptime endpoint; its body is always a plain
string (`JSON.stringify` output or `String(bool)`). -/
structure UptimeResponse where
  statusCode : Nat
  contentType : String
  cacheControl : Option String
  body : String
deriving DecidableEq, Repr

/-- The `type` query parameter normalization:
`type = type ? type.toLowerCase() : "boolean"` (a missing parameter and the
empty string are both falsy). -/
def normalizeType (typeParam : Option String) : String :=
  match typeParam with
  | none => "boolean"
  | some s => if s = "" then "boolean" else jsToLower s

/-- The `PATsValid` flag of the uptime handler: `true` unless the
`await retryer(...)` call threw. -/
def patsValidOf (retryResult : Except JsError Unit) : Bool :=
  match retryResult with
  | .ok _ => true
  | .error _ => false

/-- The uptime HTTP handler.  `retryResult` is the outcome of
`await retryer(uptimeFetcher, {})`: the inner `try/catch` turns any thrown
error into `PATsValid = false`.  Cache headers and the body shape follow
the source: `s-maxage` on `PATsValid`, `no-store` otherwise, and a
`shields` / `json` / plain-boolean body selected by the normalized `type`
parameter.  Nothing in the remainder of the outer `try` block can throw,
so the handler always returns status 200 with these headers. -/
def uptimeHandler (typeParam : Option String)
    (retryResult : Except JsError Unit) : UptimeResponse :=
  let typ := normalizeType typeParam
  let patsValid := patsValidOf retryResult
  let cache :=
    if patsValid then
      some ("max-age=0, s-maxage=" ++ toString RATE_LIMIT_SECONDS)
    else
      some "no-store"
  if typ = "shields" then
    { statusCode := 200
      contentType := "application/json"
      cacheControl := cache
      body := stringifyShields (shieldsUptimeBadge patsValid) }
  else if typ = "json" then
    { statusCode := 200
      contentType := "application/json"
      cacheControl := cache
      body := stringifyUp patsValid }
  else
    { statusCode := 200
      contentType := "text/plain"
      cacheControl := cache
      body := jsBool patsValid }

/-- Modelled from the spec: the last observed status of a pool credential
(`src/common/retryer.js` is not part of the visible source; only its call
site in the uptime function is).  Statuses follow the spec's data model. -/
inductive CredStatus
  | unknown
  | valid
  | rateLimited
  | expired
  | suspended
  | errored
deriving DecidableEq, Repr

/-- Modelled from the spec: a pool credential — a stable identifier plus
its last-known status. -/
structure Cred where
  id : String
  status : CredStatus
deriving DecidableEq, Repr

/-- Modelled from the spec: eligibility — every pool member whose status is
not currently `expired` or `suspended`. -/
def Cred.eligible (c : Cred) : Bool :=
  c.status ≠ CredStatus.expired ∧ c.status ≠ CredStatus.suspended

/-- Modelled from the spec: the classified outcome of attempting the
operation with one credential. -/
inductive AttemptOutcome
  | success
  | rateLimited
  | expired
  | suspended
  | transientError
deriving DecidableEq, Repr

/-- Modelled from the spec: the terminal error of the Retryer when no
credential yields success. -/
inductive RetryErr
  | poolExhausted
deriving DecidableEq, Repr

/-- Modelled from the spec: rotation from the round-robin cursor — the
eligible list is traversed starting at index `k`, wrapping around. -/
def rotateFrom (l : List α) (k : Nat) : List α :=
  l.drop k ++ l.take k

/-- Modelled from the spec (`src/common/retryer.js` is not in the visible
source): the sequential attempt loop of `Retryer.execute`.  Each credential
is attempted in turn; a success returns immediately, any failure category
advances to the next credential; an empty list fails with `PoolExhausted`.
The second component logs the identifiers attempted, in order. -/
def retryLoop (op : String → AttemptOutcome) :
    List Cred → Except RetryErr Unit × List String
  | [] => (.error .poolExhausted, [])
  | c :: rest =>
    match op c.id with
    | .success => (.ok (), [c.id])
    | _ =>
      let r := retryLoop op rest
      (r.1, c.id :: r.2)

/-- Modelled from the spec: `Retryer.execute` — filter the pool down to the
eligible credentials, start from the rotation cursor, and attempt
sequentially until success or pool exhaustion.  Returns the outcome
together with the list of attempted credential identifiers. -/
def retryerExecute (op : String → AttemptOutcome) (pool : List Cred)
    (cursor : Nat) : Except RetryErr Unit × List String :=
  retryLoop op
    (rotateFrom (pool.filter Cred.eligible)
      (cursor % max (pool.filter Cred.eligible).length 1))

/-! ### Sample inputs used by the concrete witness theorems -/

/-- A resolved response with a positive remaining quota. -/
def respValid (n : Int) : Response :=
  { errors := none
    data := some { rateLimit := some { remaining := some n, resetAt := none } } }

/-- A resolved response with zero remaining quota and a reset timestamp. -/
def respExhausted : Response :=
  { errors := none
    data := some { rateLimit := some { remaining := some 0, resetAt := some 600000 } } }

/-- A resolved response carrying a non-rate-limit application error while
its `rateLimit.remaining` field is zero. -/
def respErrorNF : Response :=
  { errors := some [{ type := "NOT_FOUND", message := "Could not resolve to a User" }]
    data := some { rateLimit := some { remaining := some 0, resetAt := some 600000 } } }

/-- A rejected fetch whose attached response message is the bad-credentials
signal (in its upstream capitalization). -/
def errBadCreds : JsError :=
  { message := "Request failed with status code 401"
    responseMessage := some "Bad credentials" }

/-- A rejected fetch whose attached response message is the
account-suspended signal. -/
def errSuspendedAcct : JsError :=
  { message := "Request failed with status code 403"
    responseMessage := some "Sorry. Your account was suspended." }

/-- A rejected fetch with no attached HTTP response (e.g. a network
failure): an unrecognized failure shape. -/
def errNetwork : JsError :=
  { message := "socket hang up", responseMessage := none }

/-- A two-credential pool: one valid credential, one expired. -/
def w1pats : List (String × FetchOutcome) :=
  [("PAT_1", .ok (respValid 5)), ("PAT_2", .err errBadCreds)]

/-- The report `getPATInfo` produces on `w1pats`. -/
def w1info : PATInfo :=
  { validPATs := ["PAT_1"]
    expiredPATs := ["PAT_2"]
    exhaustedPATs := []
    suspendedPATs := []
    errorPATs := []
    details := [("PAT_1", .valid (some 5)), ("PAT_2", .expired)] }

/-- A pool whose configuration order is not alphabetical. -/
def w5pats : List (String × FetchOutcome) :=
  [("PAT_2", .ok (respValid 1)), ("PAT_1", .ok (respValid 2))]

/-- An operation for which every credential is rate-limited. -/
def w6op : String → AttemptOutcome := fun _ => .rateLimited

/-- A three-credential pool with two eligible members. -/
def w6pool : List Cred :=
  [⟨"PAT_1", .unknown⟩, ⟨"PAT_2", .valid⟩, ⟨"PAT_3", .expired⟩]

/-! ### Helper lemmas about the probe loop, the detail map and the retryer -/

theorem jsSet_not_mem (m : List (String × PATDetail)) (k : String)
    (v : PATDetail) (h : k ∉ m.map Prod.fst) : jsSet m k v = m ++ [(k, v)] := by
  unfold jsSet
  rw [if_neg]
  intro hc
  rcases List.any_eq_true.mp hc with ⟨p, hp, hpk⟩
  exact h (List.mem_map.mpr ⟨p, hp, of_decide_eq_true hpk⟩)

theorem probeLoop_ok_keys (now : Int) (pats : List (String × FetchOutcome)) :
    ∀ (acc d : List (String × PATDetail)),
      (acc.map Prod.fst ++ pats.map Prod.fst).Nodup →
      probeLoop now pats acc = .ok d →
      d.map Prod.fst = acc.map Prod.fst ++ pats.map Prod.fst := by
  induction pats with
  | nil =>
    intro acc d _ h
    simp only [probeLoop] at h
    cases h
    simp
  | cons q rest ih =>
    intro acc d hnd h
    obtain ⟨pat, r⟩ := q
    cases hc : classifyPAT now r with
    | error e => simp [probeLoop, hc] at h
    | ok d0 =>
      simp only [probeLoop, hc] at h
      have hpat : pat ∉ acc.map Prod.fst := by
        intro hm
        rcases List.nodup_append.mp hnd with ⟨_, _, hdis⟩
        exact hdis hm (by simp)
      rw [jsSet_not_mem _ _ _ hpat] at h
      have hnd' : ((acc ++ [(pat, d0)]).map Prod.fst ++ rest.map Prod.fst).Nodup := by
        simpa [List.append_assoc] using hnd
      have := ih (acc ++ [(pat, d0)]) d hnd' h
      simpa [List.append_assoc] using this

theorem probeLoop_err (now : Int) (pats : List (String × FetchOutcome)) :
    ∀ (acc : List (String × PATDetail)) (pat : String) (r : FetchOutcome)
      (post : List (String × FetchOutcome)) (e : ProbeErr),
      (∀ q ∈ pats, (classifyPAT now q.2).isOk = true) →
      classifyPAT now r = .error e →
      probeLoop now (pats ++ (pat, r) :: post) acc = .error e := by
  induction pats with
  | nil =>
    intro acc pat r post e _ hr
    simp [probeLoop, hr]
  | cons q rest ih =>
    intro acc pat r post e hall hr
    obtain ⟨p0, r0⟩ := q
    have h0 : (classifyPAT now r0).isOk = true := hall (p0, r0) (by simp)
    cases hc : classifyPAT now r0 with
    | error e0 => rw [hc] at h0; cases h0
    | ok d0 =>
      simp only [List.cons_append, probeLoop, hc]
      exact ih _ pat r post e (fun q hq => hall q (by simp [hq])) hr

theorem lookup_isSome_of_mem_keys (m : List (String × PATDetail)) (k : String)
    (h : k ∈ m.map Prod.fst) : (m.lookup k).isSome = true := by
  induction m with
  | nil => simp at h
  | cons p t ih =>
    obtain ⟨a, b⟩ := p
    by_cases hk : k = a
    · simp [List.lookup, hk]
    · have : k ∈ t.map Prod.fst := by
        rcases List.mem_map.mp h with ⟨q, hq, hq1⟩
        rcases List.mem_cons.mp hq with hq' | hq'
        · exact absurd (by rw [hq'] at hq1; exact hq1.symm) hk
        · exact List.mem_map.mpr ⟨q, hq', hq1⟩
      simpa [List.lookup, beq_false_of_ne hk] using ih this

theorem keys_filterMap_lookup (m : List (String × PATDetail)) :
    ∀ l : List String, (∀ k ∈ l, k ∈ m.map Prod.fst) →
      (l.filterMap (fun k => (m.lookup k).map (fun v => (k, v)))).map Prod.fst
        = l := by
  intro l
  induction l with
  | nil => intro _; simp
  | cons k t ih =>
    intro h
    have hk := lookup_isSome_of_mem_keys m k (h k (by simp))
    rcases Option.isSome_iff_exists.mp hk with ⟨v, hv⟩
    rw [List.filterMap_cons]
    simp only [hv, Option.map_some]
    simpa using ih (fun k' hk' => h k' (by simp [hk']))

theorem sortDetails_keys (m : List (String × PATDetail)) :
    (sortDetails m).map Prod.fst = List.insertionSort jsLe (m.map Prod.fst) := by
  unfold sortDetails
  exact keys_filterMap_lookup m _
    (fun k hk => (List.mem_insertionSort jsLe).mp hk)

theorem getPATInfo_ok_details_keys (now : Int)
    (pats : List (String × FetchOutcome)) (info : PATInfo)
    (hnd : (pats.map Prod.fst).Nodup) (h : getPATInfo now pats = .ok info) :
    info.details.map Prod.fst = List.insertionSort jsLe (pats.map Prod.fst) := by
  unfold getPATInfo at h
  cases hp : probeLoop now pats [] with
  | error e => rw [hp] at h; cases h
  | ok details =>
    rw [hp] at h
    cases h
    have hk : details.map Prod.fst = pats.map Prod.fst :=
      probeLoop_ok_keys now pats [] details (by simpa using hnd) hp
    simp [sortDetails_keys, hk]

theorem getPATInfo_ok_parts (now : Int) (pats : List (String × FetchOutcome))
    (info : PATInfo) (h : getPATInfo now pats = .ok info) :
    ∃ details, probeLoop now pats [] = .ok details ∧
      info.validPATs = filterPATsByStatus details "valid" ∧
      info.expiredPATs = filterPATsByStatus details "expired" ∧
      info.exhaustedPATs = filterPATsByStatus details "exhausted" ∧
      info.suspendedPATs = filterPATsByStatus details "suspended" ∧
      info.errorPATs = filterPATsByStatus details "error" ∧
      info.details = sortDetails details := by
  unfold getPATInfo at h
  cases hp : probeLoop now pats [] with
  | error e => rw [hp] at h; cases h
  | ok details =>
    rw [hp] at h
    cases h
    exact ⟨details, rfl, rfl, rfl, rfl, rfl, rfl, rfl⟩

theorem retryLoop_all_fail (op : String → AttemptOutcome) :
    ∀ l : List Cred, (∀ c ∈ l, op c.id ≠ .success) →
      retryLoop op l = (.error .poolExhausted, l.map Cred.id) := by
  intro l
  induction l with
  | nil => intro _; rfl
  | cons c rest ih =>
    intro h
    have hc : op c.id ≠ .success := h c (by simp)
    cases ho : op c.id with
    | success => exact absurd ho hc
    | rateLimited => simp [retryLoop, ho, ih (fun c' hc' => h c' (by simp [hc']))]
    | expired => simp [retryLoop, ho, ih (fun c' hc' => h c' (by simp [hc']))]
    | suspended => simp [retryLoop, ho, ih (fun c' hc' => h c' (by simp [hc']))]
    | transientError => simp [retryLoop, ho, ih (fun c' hc' => h c' (by simp [hc']))]

theorem rotateFrom_perm (l : List α) (k : Nat) : (rotateFrom l k).Perm l := by
  unfold rotateFrom
  have h1 : (l.drop k ++ l.take k).Perm (l.take k ++ l.drop k) :=
    List.perm_append_comm
  have h2 : l.take k ++ l.drop k = l := List.take_append_drop k l
  exact h1.trans (List.Perm.of_eq h2)

/-! ### Claim theorems -/

/-- C1: a probe that completes without an aborting error never stopped
early: the details map of the returned report contains exactly one entry
per configured credential — its keys are a permutation of the configured
credential names and each configured name occurs exactly once — regardless
of how many credentials classified as valid. -/
theorem probe_details_covers_every_credential (now : Int)
    (pats : List (String × FetchOutcome)) (info : PATInfo)
    (hnd : (pats.map Prod.fst).Nodup) (h : getPATInfo now pats = .ok info) :
    (info.details.map Prod.fst).Perm (pats.map Prod.fst)
    ∧ ∀ pat ∈ pats.map Prod.fst, (info.details.map Prod.fst).count pat = 1 := by
  have hk := getPATInfo_ok_details_keys now pats info hnd h
  have hperm : (info.details.map Prod.fst).Perm (pats.map Prod.fst) := by
    rw [hk]
    exact List.perm_insertionSort jsLe _
  refine ⟨hperm, fun pat hm => ?_⟩
  have hnd' : (info.details.map Prod.fst).Nodup := hperm.nodup_iff.mpr hnd
  exact List.count_eq_one_of_mem hnd' (hperm.mem_iff.mpr hm)

/-- C1 witness: on a concrete two-credential pool (one valid, one expired)
the probe succeeds and its details map has exactly the two configured keys. -/
theorem probe_details_covers_every_credential_witness :
    (w1pats.map Prod.fst).Nodup ∧ getPATInfo 0 w1pats = .ok w1info ∧
      ((w1info.details.map Prod.fst).Perm (w1pats.map Prod.fst)
       ∧ ∀ pat ∈ w1pats.map Prod.fst, (w1info.details.map Prod.fst).count pat = 1) :=
  ⟨by decide, by rfl,
    probe_details_covers_every_credential 0 w1pats w1info (by decide) (by rfl)⟩

/-- C2: a credential whose fetch throws an error that is neither the
bad-credentials signal nor the account-suspended signal aborts the whole
probe — `getPATInfo` re-throws that very error instead of recording a
status for the credential and continuing — and the handler then returns a
500 internal-error response. -/
theorem probe_aborts_on_unrecognized_error (now : Int)
    (pre post : List (String × FetchOutcome)) (pat : String) (e : JsError)
    (hpre : ∀ q ∈ pre, (classifyPAT now q.2).isOk = true)
    (h1 : e.lowerMsg ≠ some "bad credentials")
    (h2 : e.lowerMsg ≠ some "sorry. your account was suspended.") :
    getPATInfo now (pre ++ (pat, .err e) :: post) = .error (.rethrown e)
    ∧ (patInfoHandler now (pre ++ (pat, .err e) :: post)).statusCode = 500 := by
  have hc : classifyPAT now (.err e) = .error (.rethrown e) := by
    simp [classifyPAT, h1, h2]
  have hp := probeLoop_err now pre [] pat (.err e) post (.rethrown e) hpre hc
  constructor
  · unfold getPATInfo
    rw [hp]
  · unfold patInfoHandler getPATInfo
    rw [hp]

/-- C2 witness: after one healthy credential, a network-shaped error (no
attached response message) aborts the probe and yields a 500. -/
theorem probe_aborts_on_unrecognized_error_witness :
    (∀ q ∈ [("PAT_1", FetchOutcome.ok (respValid 5))],
        (classifyPAT 0 q.2).isOk = true)
    ∧ errNetwork.lowerMsg ≠ some "bad credentials"
    ∧ errNetwork.lowerMsg ≠ some "sorry. your account was suspended."
    ∧ (getPATInfo 0
          ([("PAT_1", FetchOutcome.ok (respValid 5))] ++
            ("PAT_2", FetchOutcome.err errNetwork) :: [])
        = .error (.rethrown errNetwork)
       ∧ (patInfoHandler 0
            ([("PAT_1", FetchOutcome.ok (respValid 5))] ++
              ("PAT_2", FetchOutcome.err errNetwork) :: [])).statusCode = 500) :=
  ⟨by decide, by decide, by decide,
    probe_aborts_on_unrecognized_error 0
      [("PAT_1", FetchOutcome.ok (respValid 5))] [] "PAT_2" errNetwork
      (by decide) (by decide) (by decide)⟩

/-- C3: a thrown fetch error whose lower-cased response message is the
bad-credentials signal is classified `expired`, the account-suspended
signal is classified `suspended`, and no thrown fetch error is ever
classified `exhausted` (rate-limited), whatever the response carried. -/
theorem thrown_error_classification_priority (now : Int) (e : JsError) :
    (e.lowerMsg = some "bad credentials" →
      classifyPAT now (.err e) = .ok .expired)
    ∧ (e.lowerMsg = some "sorry. your account was suspended." →
      classifyPAT now (.err e) = .ok .suspended)
    ∧ (∀ d, classifyPAT now (.err e) = .ok d → d.status ≠ "exhausted") := by
  refine ⟨fun h => by simp [classifyPAT, h], fun h => by simp [classifyPAT, h], ?_⟩
  intro d hd
  by_cases h1 : e.lowerMsg = some "bad credentials"
  · simp [classifyPAT, h1] at hd
    simp [← hd, PATDetail.status]
  · by_cases h2 : e.lowerMsg = some "sorry. your account was suspended."
    · simp [classifyPAT, h1, h2] at hd
      simp [← hd, PATDetail.status]
    · simp [classifyPAT, h1, h2] at hd

/-- C3 witness: concrete bad-credentials and account-suspended errors are
classified expired resp. suspended, and neither is exhausted. -/
theorem thrown_error_classification_priority_witness :
    errBadCreds.lowerMsg = some "bad credentials"
    ∧ errSuspendedAcct.lowerMsg = some "sorry. your account was suspended."
    ∧ classifyPAT 0 (.err errBadCreds) = .ok .expired
    ∧ classifyPAT 0 (.err errSuspendedAcct) = .ok .suspended :=
  ⟨by rfl, by rfl,
    (thrown_error_classification_priority 0 errBadCreds).1 (by rfl),
    (thrown_error_classification_priority 0 errSuspendedAcct).2.1 (by rfl)⟩

/-- C8: the shields badge is fully determined by the boolean: message
`"up"`/`"down"`, color `"brightgreen"`/`"red"`, and its error flag is the
constant `false` — in particular it is never set merely because the
instance is down. -/
theorem shields_badge_shape (up : Bool) :
    (shieldsUptimeBadge up).message = (if up then "up" else "down")
    ∧ (shieldsUptimeBadge up).color = (if up then "brightgreen" else "red")
    ∧ (shieldsUptimeBadge up).isError = false := by
  cases up <;> exact ⟨rfl, rfl, rfl⟩

/-- C4 counterexample: a successful response whose first application-level
error is not of the rate-limiting type while the remaining-quota field is
zero is classified `error`, not `exhausted` — refuting the claimed "if and
only if" (the quota field equals zero, yet the credential is not classified
rate-limited). -/
theorem exhausted_iff_counterexample :
    respErrorNF.remainingOpt = some 0
    ∧ classifyPAT 0 (.ok respErrorNF)
        = .ok (.error "NOT_FOUND" "Could not resolve to a User")
    ∧ (PATDetail.error "NOT_FOUND" "Could not resolve to a User").status
        ≠ "exhausted" :=
  ⟨by rfl, by rfl, by decide⟩

/-- C4 amended: among classifications that record a detail (no abort), a
successful response is classified `exhausted` iff its first
application-level error has the rate-limiting type, or it carries no
application-level errors and its remaining-quota field equals zero (a
non-rate-limit error takes priority over a zero quota); in that case the
detail records `remaining 0` and `resetIn` equal to the truncated integer
number of minutes between the reset timestamp and the current time. -/
theorem exhausted_classification (now : Int) (resp : Response) (d : PATDetail)
    (h : classifyPAT now (.ok resp) = .ok d) :
    (d.status = "exhausted" ↔
      (resp.firstErrType = some "RATE_LIMITED"
       ∨ (resp.errors = none ∧ resp.remainingOpt = some 0)))
    ∧ (d.status = "exhausted" →
        d = .exhausted 0 (resetInStr now resp.resetAtOpt))
    ∧ (∀ t, resp.resetAtOpt = some t →
        resetInStr now resp.resetAtOpt
          = toString (dateDiff t now) ++ " minutes") := by
  have h3 : ∀ t, resp.resetAtOpt = some t →
      resetInStr now resp.resetAtOpt
        = toString (dateDiff t now) ++ " minutes" := by
    intro t ht
    rw [ht]
    rfl
  cases herr : resp.errors with
  | some l =>
    cases l with
    | nil => simp [classifyPAT, herr] at h
    | cons e0 rest =>
      by_cases ht : e0.type = "RATE_LIMITED"
      · rw [show classifyPAT now (.ok resp)
            = .ok (.exhausted 0 (resetInStr now resp.resetAtOpt)) by
          simp [classifyPAT, herr, ht]] at h
        cases h
        refine ⟨?_, fun _ => rfl, h3⟩
        simp [PATDetail.status, Response.firstErrType, herr, ht]
      · rw [show classifyPAT now (.ok resp) = .ok (.error e0.type e0.message) by
          simp [classifyPAT, herr, ht]] at h
        cases h
        refine ⟨?_, ?_, h3⟩
        · simp [PATDetail.status, Response.firstErrType, herr, ht]
        · intro hc
          simp [PATDetail.status] at hc
  | none =>
    by_cases hr : resp.remainingOpt = some 0
    · rw [show classifyPAT now (.ok resp)
          = .ok (.exhausted 0 (resetInStr now resp.resetAtOpt)) by
        simp [classifyPAT, herr, hr]] at h
      cases h
      refine ⟨?_, fun _ => rfl, h3⟩
      simp [PATDetail.status, herr, hr]
    · cases hd : resp.data with
      | none => simp [classifyPAT, herr, hr, hd] at h
      | some dd =>
        cases hrl : dd.rateLimit with
        | none => simp [classifyPAT, herr, hr, hd, hrl] at h
        | some rl =>
          rw [show classifyPAT now (.ok resp) = .ok (.valid rl.remaining) by
            simp [classifyPAT, herr, hr, hd, hrl]] at h
          cases h
          refine ⟨?_, ?_, h3⟩
          · simp [PATDetail.status, Response.firstErrType, herr, hr]
          · intro hc
            simp [PATDetail.status] at hc

/-- C4 witness: a concrete zero-quota response (no application errors) is
classified exhausted with `remaining 0` and `resetIn` of ten truncated
minutes. -/
theorem exhausted_classification_witness :
    classifyPAT 0 (.ok respExhausted) = .ok (.exhausted 0 "10 minutes")
    ∧ ((PATDetail.exhausted 0 "10 minutes").status = "exhausted" ↔
        (respExhausted.firstErrType = some "RATE_LIMITED"
         ∨ (respExhausted.errors = none
            ∧ respExhausted.remainingOpt = some 0)))
    ∧ resetInStr 0 respExhausted.resetAtOpt
        = toString (dateDiff 600000 0) ++ " minutes" :=
  ⟨by rfl,
    (exhausted_classification 0 respExhausted (.exhausted 0 "10 minutes")
      (by rfl)).1,
    (exhausted_classification 0 respExhausted (.exhausted 0 "10 minutes")
      (by rfl)).2.2 600000 (by rfl)⟩

/-- C5 counterexample: with credentials configured in the order
`PAT_2, PAT_1` (both valid), the produced `validPATs` list is
`["PAT_2", "PAT_1"]` — configuration order, not ordered by credential
name — refuting the claim that each of the five lists is sorted. -/
theorem report_lists_sorted_counterexample :
    (getPATInfo 0 w5pats).toOption.map PATInfo.validPATs
      = some ["PAT_2", "PAT_1"]
    ∧ ¬ List.Sorted jsLe ["PAT_2", "PAT_1"] :=
  ⟨by rfl, by decide⟩

/-- C5 amended: in every successfully produced report, the keys of the
details map are sorted by credential identifier, while each of the five
status lists is in configuration (pool) order — a sublist of the configured
credential sequence — not sorted by name. -/
theorem report_details_sorted_lists_pool_order (now : Int)
    (pats : List (String × FetchOutcome)) (info : PATInfo)
    (hnd : (pats.map Prod.fst).Nodup) (h : getPATInfo now pats = .ok info) :
    List.Sorted jsLe (info.details.map Prod.fst)
    ∧ List.Sublist info.validPATs (pats.map Prod.fst)
    ∧ List.Sublist info.expiredPATs (pats.map Prod.fst)
    ∧ List.Sublist info.exhaustedPATs (pats.map Prod.fst)
    ∧ List.Sublist info.suspendedPATs (pats.map Prod.fst)
    ∧ List.Sublist info.errorPATs (pats.map Prod.fst) := by
  obtain ⟨details, hp, hv, he, hx, hs, her, hdet⟩ :=
    getPATInfo_ok_parts now pats info h
  have hkeys : details.map Prod.fst = pats.map Prod.fst :=
    probeLoop_ok_keys now pats [] details (by simpa using hnd) hp
  have hsub : ∀ s, List.Sublist (filterPATsByStatus details s)
      (pats.map Prod.fst) := by
    intro s
    rw [← hkeys]
    exact (List.filter_sublist details).map Prod.fst
  refine ⟨?_, hv ▸ hsub "valid", he ▸ hsub "expired", hx ▸ hsub "exhausted",
    hs ▸ hsub "suspended", her ▸ hsub "error"⟩
  rw [hdet, sortDetails_keys]
  exact List.sorted_insertionSort jsLe _

/-- C5 witness: the amended statement evaluated on the concrete
two-credential pool. -/
theorem report_details_sorted_lists_pool_order_witness :
    (w1pats.map Prod.fst).Nodup ∧
      (List.Sorted jsLe (w1info.details.map Prod.fst)
       ∧ List.Sublist w1info.validPATs (w1pats.map Prod.fst)
       ∧ List.Sublist w1info.expiredPATs (w1pats.map Prod.fst)
       ∧ List.Sublist w1info.exhaustedPATs (w1pats.map Prod.fst)
       ∧ List.Sublist w1info.suspendedPATs (w1pats.map Prod.fst)
       ∧ List.Sublist w1info.errorPATs (w1pats.map Prod.fst)) :=
  ⟨by decide,
    report_details_sorted_lists_pool_order 0 w1pats w1info (by decide) (by rfl)⟩

/-- C6: when every eligible credential classifies as rate-limited, the
Retryer fails with `PoolExhausted` only after attempting every eligible
credential exactly once (the attempt log is a permutation of the eligible
identifiers); and with zero eligible credentials it fails with the same
error without performing any attempt. -/
theorem retryer_pool_exhaustion (op : String → AttemptOutcome)
    (pool : List Cred) (cursor : Nat) :
    ((∀ c ∈ pool, c.eligible = true → op c.id = .rateLimited) →
      (retryerExecute op pool cursor).1 = .error .poolExhausted
      ∧ ((retryerExecute op pool cursor).2).Perm
          ((pool.filter Cred.eligible).map Cred.id))
    ∧ (pool.filter Cred.eligible = [] →
        retryerExecute op pool cursor = (.error .poolExhausted, [])) := by
  constructor
  · intro hall
    have helig : ∀ c ∈ rotateFrom (pool.filter Cred.eligible)
        (cursor % max (pool.filter Cred.eligible).length 1),
        op c.id ≠ .success := by
      intro c hc hs
      have hmem : c ∈ pool.filter Cred.eligible :=
        ((rotateFrom_perm _ _).mem_iff).mp hc
      have hm := List.mem_filter.mp hmem
      rw [hall c hm.1 hm.2] at hs
      cases hs
    unfold retryerExecute
    rw [retryLoop_all_fail op _ helig]
    exact ⟨rfl, (rotateFrom_perm (pool.filter Cred.eligible) _).map Cred.id⟩
  · intro hempty
    unfold retryerExecute
    rw [hempty]
    simp [rotateFrom, retryLoop]

/-- C6 witness: a three-credential pool with one expired member and an
all-rate-limited operation attempts exactly the two eligible credentials;
the all-expired pool performs no attempt. -/
theorem retryer_pool_exhaustion_witness :
    (∀ c ∈ w6pool, c.eligible = true → w6op c.id = .rateLimited)
    ∧ ((retryerExecute w6op w6pool 1).1 = .error .poolExhausted
       ∧ ((retryerExecute w6op w6pool 1).2).Perm
           ((w6pool.filter Cred.eligible).map Cred.id))
    ∧ (List.filter Cred.eligible [Cred.mk "PAT_1" .expired] = []
       ∧ retryerExecute w6op [Cred.mk "PAT_1" .expired] 0
           = (.error .poolExhausted, [])) :=
  ⟨by decide, (retryer_pool_exhaustion w6op w6pool 1).1 (by decide),
    by decide, (retryer_pool_exhaustion w6op [Cred.mk "PAT_1" .expired] 0).2 (by decide)⟩

/-- C7: every retryer failure is converted into a normal down response:
whatever error the retryer threw, the uptime handler returns status 200,
the response does not depend on which error was thrown, and the body is
one of the three down-shaped bodies. -/
theorem uptime_converts_failure_to_down (typ : Option String)
    (e e' : JsError) :
    (uptimeHandler typ (.error e)).statusCode = 200
    ∧ uptimeHandler typ (.error e) = uptimeHandler typ (.error e')
    ∧ ((uptimeHandler typ (.error e)).body
          = stringifyShields (shieldsUptimeBadge false)
       ∨ (uptimeHandler typ (.error e)).body = stringifyUp false
       ∨ (uptimeHandler typ (.error e)).body = jsBool false) := by
  by_cases h1 : normalizeType typ = "shields"
  · refine ⟨?_, ?_, Or.inl ?_⟩ <;> simp [uptimeHandler, patsValidOf, h1]
  · by_cases h2 : normalizeType typ = "json"
    · refine ⟨?_, ?_, Or.inr (Or.inl ?_)⟩ <;>
        simp [uptimeHandler, patsValidOf, h1, h2]
    · refine ⟨?_, ?_, Or.inr (Or.inr ?_)⟩ <;>
        simp [uptimeHandler, patsValidOf, h1, h2]

/-- C9 counterexample: when the retryer fails, the uptime endpoint returns
a successfully produced response — status 200 with a well-formed down body
— that nevertheless carries `Cache-Control: no-store`, refuting "no-store
exactly on internal failure, never on a successfully produced response". -/
theorem cache_headers_counterexample :
    (uptimeHandler none (.error errNetwork)).cacheControl = some "no-store"
    ∧ (uptimeHandler none (.error errNetwork)).statusCode = 200 :=
  ⟨by rfl, by rfl⟩

/-- C9 amended: the pat-info endpoint sets `s-maxage=300` on success and
`no-store` exactly on internal failure (status 500); the uptime endpoint
always returns 200 but sets `s-maxage=300` only when the probe succeeded,
and `no-store` whenever the retryer failed — including on its successfully
produced down response. -/
theorem cache_header_policy :
    (∀ (now : Int) (pats : List (String × FetchOutcome)) (info : PATInfo),
      getPATInfo now pats = .ok info →
        (patInfoHandler now pats).statusCode = 200
        ∧ (patInfoHandler now pats).cacheControl
            = some "max-age=0, s-maxage=300")
    ∧ (∀ (now : Int) (pats : List (String × FetchOutcome)) (e : ProbeErr),
      getPATInfo now pats = .error e →
        (patInfoHandler now pats).statusCode = 500
        ∧ (patInfoHandler now pats).cacheControl = some "no-store")
    ∧ (∀ typ : Option String,
        (uptimeHandler typ (.ok ())).cacheControl
          = some "max-age=0, s-maxage=300")
    ∧ (∀ (typ : Option String) (e : JsError),
        (uptimeHandler typ (.error e)).cacheControl = some "no-store") := by
  refine ⟨?_, ?_, ?_, ?_⟩
  · intro now pats info h
    unfold patInfoHandler
    rw [h]
    exact ⟨rfl, rfl⟩
  · intro now pats e h
    unfold patInfoHandler
    rw [h]
    exact ⟨rfl, rfl⟩
  · intro typ
    by_cases h1 : normalizeType typ = "shields"
    · simp [uptimeHandler, patsValidOf, h1]
      rfl
    · by_cases h2 : normalizeType typ = "json"
      · simp [uptimeHandler, patsValidOf, h1, h2]
        rfl
      · simp [uptimeHandler, patsValidOf, h1, h2]
        rfl
  · intro typ e
    by_cases h1 : normalizeType typ = "shields"
    · simp [uptimeHandler, patsValidOf, h1]
    · by_cases h2 : normalizeType typ = "json"
      · simp [uptimeHandler, patsValidOf, h1, h2]
      · simp [uptimeHandler, patsValidOf, h1, h2]

/-- C9 witness: the amended cache policy evaluated at concrete inputs for
all four cases. -/
theorem cache_header_policy_witness :
    ((patInfoHandler 0 w1pats).statusCode = 200
     ∧ (patInfoHandler 0 w1pats).cacheControl
         = some "max-age=0, s-maxage=300")
    ∧ ((patInfoHandler 0 [("PAT_1", .err errNetwork)]).statusCode = 500
       ∧ (patInfoHandler 0 [("PAT_1", .err errNetwork)]).cacheControl
           = some "no-store")
    ∧ (uptimeHandler (some "json") (.ok ())).cacheControl
        = some "max-age=0, s-maxage=300"
    ∧ (uptimeHandler (some "json") (.error errNetwork)).cacheControl
        = some "no-store" :=
  ⟨cache_header_policy.1 0 w1pats w1info (by rfl),
    cache_header_policy.2.1 0 [("PAT_1", .err errNetwork)]
      (.rethrown errNetwork) (by rfl),
    cache_header_policy.2.2.1 (some "json"),
    cache_header_policy.2.2.2 (some "json") errNetwork⟩

/-- C10: for every retryer outcome the uptime handler returns status 200
with a well-formed body in the selected output shape (shields JSON, `{up}`
JSON, or plain boolean text); a 500 could only arise from an exception
outside the retryer try/catch, and nothing in the remaining handler code
can throw. -/
theorem uptime_down_is_200 (typ : Option String) (r : Except JsError Unit) :
    (uptimeHandler typ r).statusCode = 200
    ∧ (normalizeType typ = "shields" →
        (uptimeHandler typ r).body
          = stringifyShields (shieldsUptimeBadge (patsValidOf r)))
    ∧ (normalizeType typ ≠ "shields" → normalizeType typ = "json" →
        (uptimeHandler typ r).body = stringifyUp (patsValidOf r))
    ∧ (normalizeType typ ≠ "shields" → normalizeType typ ≠ "json" →
        (uptimeHandler typ r).body = jsBool (patsValidOf r)) := by
  by_cases h1 : normalizeType typ = "shields" <;>
    by_cases h2 : normalizeType typ = "json" <;>
    simp [uptimeHandler, h1, h2]

/-- C10 witness: shields shape on a failed retryer call, json and boolean
shapes on concrete inputs. -/
theorem uptime_down_is_200_witness :
    normalizeType (some "shields") = "shields"
    ∧ ((uptimeHandler (some "shields") (.error errNetwork)).statusCode = 200
       ∧ (uptimeHandler (some "shields") (.error errNetwork)).body
           = stringifyShields (shieldsUptimeBadge
               (patsValidOf (.error errNetwork))))
    ∧ (uptimeHandler none (.ok ())).body = jsBool (patsValidOf (.ok ())) :=
  ⟨by rfl,
    ⟨(uptime_down_is_200 (some "shields") (.error errNetwork)).1,
      (uptime_down_is_200 (some "shields") (.error errNetwork)).2.1 (by rfl)⟩,
    (uptime_down_is_200 none (.ok ())).2.2.2 (by decide) (by decide)⟩

end GRS
